import Mathlib

/-! Verification of the MIDI-to-analogue-sync firmware core (src/code.py).

The state is the set of module-level globals that the control loop mutates,
together with the two physical outputs (LED PWM duty cycle and sync pin
level).  Millisecond timestamps (`time.monotonic() * 1000` in the source)
are modelled as integers. -/

/-- Tagged union of the decoded MIDI messages the dispatcher branches on
(loop, lines 156-171 of code.py). -/
inductive MidiMessage where
  | timingClock : MidiMessage
  | start : MidiMessage
  | stop : MidiMessage
  | unknown (status : Nat) : MidiMessage
  | other : MidiMessage
deriving DecidableEq

/-- The mutable globals of code.py (lines 49-62) together with the two
physical outputs (LED duty cycle, sync pin level). -/
structure EngineState where
  clock_ticks : Nat
  pulsing : Bool
  pulse_check_millis : Int
  pulse_led_millis : Int
  pulse_sync_millis : Int
  led_duty : Nat
  sync_value : Bool
deriving DecidableEq

/-- pulse_check = 5 (line 53): poll throttle interval in ms. -/
def pulse_check : Int := 5

/-- pulse_led = 15 (line 56): LED hold duration in ms. -/
def pulse_led : Int := 15

/-- pulse_sync = 15 (line 59): sync-line hold duration in ms. -/
def pulse_sync : Int := 15

/-- int(65535 * 0.001), the weak (half-beat) LED duty cycle (line 189). -/
def duty_weak : Nat := 65

/-- int(65535 * 0.2), the strong (beat) LED duty cycle (line 201). -/
def duty_strong : Nat := 13107

/-- Module initialisation (lines 49-62) and setup(): counters zero,
transport stopped, outputs low. -/
def initial_state : EngineState :=
  { clock_ticks := 0, pulsing := false, pulse_check_millis := 0,
    pulse_led_millis := 0, pulse_sync_millis := 0, led_duty := 0,
    sync_value := false }

/-- led_pin_on (lines 207-213): drive the LED at the given duty cycle and
record the assertion timestamp. -/
def led_pin_on (duty : Nat) (now : Int) (s : EngineState) : EngineState :=
  { s with led_duty := duty, pulse_led_millis := now }

/-- led_pin_off (lines 216-222): LED off, timestamp cleared. -/
def led_pin_off (s : EngineState) : EngineState :=
  { s with led_duty := 0, pulse_led_millis := 0 }

/-- sync_pin_on (lines 225-230): sync line high, assertion timestamp
recorded. -/
def sync_pin_on (now : Int) (s : EngineState) : EngineState :=
  { s with sync_value := true, pulse_sync_millis := now }

/-- sync_pin_off (lines 233-238): sync line low, timestamp cleared. -/
def sync_pin_off (s : EngineState) : EngineState :=
  { s with sync_value := false, pulse_sync_millis := 0 }

/-- handle_clock (lines 174-204).  Besides the successor state we record two
ghost observations: whether this call requested a half-beat pulse (weak LED
plus sync line, the `clock_ticks % 12 == 0` branch) and whether it
additionally requested a strong beat (strong LED plus counter reset, the
`clock_ticks % 24 == 0` branch). -/
def handle_clock (now : Int) (s : EngineState) : EngineState × Bool × Bool :=
  if s.pulsing = false then (s, false, false)
  else
    let half := decide (s.clock_ticks % 12 = 0)
    let strong := decide (s.clock_ticks % 24 = 0)
    let s1 := if half then sync_pin_on now (led_pin_on duty_weak now s) else s
    let s2 := if strong then led_pin_on duty_strong now { s1 with clock_ticks := 0 } else s1
    ({ s2 with clock_ticks := s2.clock_ticks + 1 }, half, strong)

/-- handle_start (lines 241-248): reset the tick counter and run. -/
def handle_start (s : EngineState) : EngineState :=
  { s with clock_ticks := 0, pulsing := true }

/-- handle_stop (lines 254-258): stop; nothing else is touched. -/
def handle_stop (s : EngineState) : EngineState :=
  { s with pulsing := false }

/-- The message dispatch of loop (lines 156-171), with the same ghost pulse
observations as handle_clock.  TimingClock is forwarded only while pulsing
(line 157); Start and Stop go to their handlers; unknown or other messages
are only logged. -/
def dispatch (msg : MidiMessage) (now : Int) (s : EngineState) :
    EngineState × Bool × Bool :=
  match msg with
  | .timingClock => if s.pulsing then handle_clock now s else (s, false, false)
  | .start => (handle_start s, false, false)
  | .stop => (handle_stop s, false, false)
  | .unknown _ => (s, false, false)
  | .other => (s, false, false)

/-- The release pass of loop (lines 144-147): each asserted channel whose
hold duration has elapsed is driven off. -/
def poll (now : Int) (s : EngineState) : EngineState :=
  let s1 := if s.pulse_led_millis ≠ 0 ∧ now - s.pulse_led_millis > pulse_led
    then led_pin_off s else s
  if s1.pulse_sync_millis ≠ 0 ∧ now - s1.pulse_sync_millis > pulse_sync
    then sync_pin_off s1 else s1

/-- Lines 141-151 of loop: while pulsing, run the throttled release pass
and remember the poll time; while stopped, ramp the idle LED from the loop
index. -/
def loop_poll_or_idle (now : Int) (idx : Nat) (s : EngineState) : EngineState :=
  if s.pulsing then
    if now - s.pulse_check_millis > pulse_check then
      { poll now s with pulse_check_millis := now }
    else s
  else
    { s with led_duty := idx % 2048 }

/-- One iteration of loop (lines 115-171): poll-or-idle first, then one
non-blocking receive and dispatch.  `tpoll` is the monotonic time read at
line 142, `tmsg` the time at which the handlers of the received message run. -/
def loop (tpoll tmsg : Int) (idx : Nat) (msg : Option MidiMessage)
    (s : EngineState) : EngineState :=
  let s1 := loop_poll_or_idle tpoll idx s
  match msg with
  | none => s1
  | some m => (dispatch m tmsg s1).1

/-- Dispatch n consecutive TimingClock messages, counting how many of them
requested a half-beat pulse and how many a strong beat. -/
def run_clocks (now : Int) : Nat → EngineState → EngineState × Nat × Nat
  | 0, s => (s, 0, 0)
  | Nat.succ m, s =>
    let r := dispatch .timingClock now s
    let rest := run_clocks now m r.1
    (rest.1, (if r.2.1 then 1 else 0) + rest.2.1,
      (if r.2.2 then 1 else 0) + rest.2.2)

/-- The inputs consumed by one iteration of loop: the two monotonic time
reads, the idle loop index, and the (possibly absent) received message. -/
structure LoopInput where
  tpoll : Int
  tmsg : Int
  idx : Nat
  msg : Option MidiMessage
deriving DecidableEq

/-- Run the main loop (lines 266-270) over a finite list of per-iteration
inputs. -/
def run_loop : EngineState → List LoopInput → EngineState
  | s, [] => s
  | s, i :: rest => run_loop (loop i.tpoll i.tmsg i.idx i.msg s) rest

/-- The sync-channel invariant: the assertion timestamp is nonzero exactly
when the sync pin is driven high. -/
def sync_inv (s : EngineState) : Prop :=
  s.pulse_sync_millis ≠ 0 ↔ s.sync_value = true

/-! Helper lemmas about the individual operations. -/

theorem handle_clock_spec (now : Int) (s : EngineState) (hp : s.pulsing = true) :
    (handle_clock now s).1.clock_ticks
        = (if s.clock_ticks % 24 = 0 then 1 else s.clock_ticks + 1) ∧
    (handle_clock now s).1.pulsing = true ∧
    (handle_clock now s).2.1 = decide (s.clock_ticks % 12 = 0) ∧
    (handle_clock now s).2.2 = decide (s.clock_ticks % 24 = 0) := by
  simp only [handle_clock, hp]
  by_cases h12 : s.clock_ticks % 12 = 0 <;>
    by_cases h24 : s.clock_ticks % 24 = 0 <;>
      simp [h12, h24, hp, sync_pin_on, led_pin_on]

theorem dispatch_clock_eq (now : Int) (s : EngineState) (hp : s.pulsing = true) :
    dispatch .timingClock now s = handle_clock now s := by
  simp [dispatch, hp]

theorem run_clocks_spec (now : Int) :
    ∀ (n : Nat) (s : EngineState), s.pulsing = true → s.clock_ticks ≤ 24 →
      (run_clocks now n s).2.1 = (n + ((s.clock_ticks + 23) % 24) % 12) / 12 ∧
      (run_clocks now n s).2.2 = (n + (s.clock_ticks + 23) % 24) / 24 := by
  intro n
  induction n with
  | zero =>
    intro s hp hc
    refine ⟨?_, ?_⟩ <;> simp only [run_clocks] <;> omega
  | succ m ih =>
    intro s hp hc
    obtain ⟨ht, hp2, hh, hst⟩ := handle_clock_spec now s hp
    have hc2 : (handle_clock now s).1.clock_ticks ≤ 24 := by
      rw [ht]; split <;> omega
    obtain ⟨ih1, ih2⟩ := ih (handle_clock now s).1 hp2 hc2
    simp only [run_clocks, dispatch_clock_eq now s hp]
    rw [ih1, ih2, hh, hst]
    simp only [decide_eq_true_eq]
    by_cases h24 : s.clock_ticks % 24 = 0
    · rw [if_pos h24] at ht
      have h12 : s.clock_ticks % 12 = 0 := by omega
      rw [if_pos h12, if_pos h24]
      constructor <;> omega
    · rw [if_neg h24] at ht
      by_cases h12 : s.clock_ticks % 12 = 0
      · rw [if_pos h12, if_neg h24]
        constructor <;> omega
      · rw [if_neg h12, if_neg h24]
        constructor <;> omega

theorem poll_sync_value (now : Int) (s : EngineState) :
    (poll now s).sync_value =
      (if s.pulse_sync_millis ≠ 0 ∧ now - s.pulse_sync_millis > pulse_sync
       then false else s.sync_value) := by
  unfold poll led_pin_off sync_pin_off
  by_cases hl : s.pulse_led_millis ≠ 0 ∧ now - s.pulse_led_millis > pulse_led <;>
    by_cases hs : s.pulse_sync_millis ≠ 0 ∧ now - s.pulse_sync_millis > pulse_sync <;>
      simp [hl, hs]

theorem poll_sync_millis (now : Int) (s : EngineState) :
    (poll now s).pulse_sync_millis =
      (if s.pulse_sync_millis ≠ 0 ∧ now - s.pulse_sync_millis > pulse_sync
       then 0 else s.pulse_sync_millis) := by
  unfold poll led_pin_off sync_pin_off
  by_cases hl : s.pulse_led_millis ≠ 0 ∧ now - s.pulse_led_millis > pulse_led <;>
    by_cases hs : s.pulse_sync_millis ≠ 0 ∧ now - s.pulse_sync_millis > pulse_sync <;>
      simp [hl, hs]

theorem poll_led_duty (now : Int) (s : EngineState) :
    (poll now s).led_duty =
      (if s.pulse_led_millis ≠ 0 ∧ now - s.pulse_led_millis > pulse_led
       then 0 else s.led_duty) := by
  unfold poll led_pin_off sync_pin_off
  by_cases hl : s.pulse_led_millis ≠ 0 ∧ now - s.pulse_led_millis > pulse_led <;>
    by_cases hs : s.pulse_sync_millis ≠ 0 ∧ now - s.pulse_sync_millis > pulse_sync <;>
      simp [hl, hs]

theorem poll_led_millis (now : Int) (s : EngineState) :
    (poll now s).pulse_led_millis =
      (if s.pulse_led_millis ≠ 0 ∧ now - s.pulse_led_millis > pulse_led
       then 0 else s.pulse_led_millis) := by
  unfold poll led_pin_off sync_pin_off
  by_cases hl : s.pulse_led_millis ≠ 0 ∧ now - s.pulse_led_millis > pulse_led <;>
    by_cases hs : s.pulse_sync_millis ≠ 0 ∧ now - s.pulse_sync_millis > pulse_sync <;>
      simp [hl, hs]

theorem poll_pulsing (now : Int) (s : EngineState) :
    (poll now s).pulsing = s.pulsing := by
  unfold poll led_pin_off sync_pin_off
  by_cases hl : s.pulse_led_millis ≠ 0 ∧ now - s.pulse_led_millis > pulse_led <;>
    by_cases hs : s.pulse_sync_millis ≠ 0 ∧ now - s.pulse_sync_millis > pulse_sync <;>
      simp [hl, hs]

theorem poll_ticks (now : Int) (s : EngineState) :
    (poll now s).clock_ticks = s.clock_ticks := by
  unfold poll led_pin_off sync_pin_off
  by_cases hl : s.pulse_led_millis ≠ 0 ∧ now - s.pulse_led_millis > pulse_led <;>
    by_cases hs : s.pulse_sync_millis ≠ 0 ∧ now - s.pulse_sync_millis > pulse_sync <;>
      simp [hl, hs]

theorem loop_poll_or_idle_pulsing (now : Int) (idx : Nat) (s : EngineState) :
    (loop_poll_or_idle now idx s).pulsing = s.pulsing := by
  unfold loop_poll_or_idle
  split_ifs <;> simp_all [poll_pulsing]

theorem loop_poll_or_idle_ticks (now : Int) (idx : Nat) (s : EngineState) :
    (loop_poll_or_idle now idx s).clock_ticks = s.clock_ticks := by
  unfold loop_poll_or_idle
  split_ifs <;> simp_all [poll_ticks]

theorem loop_poll_or_idle_stopped (now : Int) (idx : Nat) (s : EngineState)
    (h : s.pulsing = false) :
    loop_poll_or_idle now idx s = { s with led_duty := idx % 2048 } := by
  unfold loop_poll_or_idle
  simp [h]

theorem handle_clock_sync_on (now : Int) (s : EngineState)
    (hp : s.pulsing = true) (h12 : s.clock_ticks % 12 = 0) :
    (handle_clock now s).1.sync_value = true ∧
    (handle_clock now s).1.pulse_sync_millis = now := by
  simp only [handle_clock, hp]
  by_cases h24 : s.clock_ticks % 24 = 0 <;>
    simp [h12, h24, sync_pin_on, led_pin_on]

theorem handle_clock_sync_keep (now : Int) (s : EngineState)
    (h12 : ¬ s.clock_ticks % 12 = 0) :
    (handle_clock now s).1.sync_value = s.sync_value ∧
    (handle_clock now s).1.pulse_sync_millis = s.pulse_sync_millis := by
  unfold handle_clock
  have h24 : ¬ s.clock_ticks % 24 = 0 := by omega
  by_cases hp : s.pulsing = false <;>
    simp [hp, h12, h24, sync_pin_on, led_pin_on]

theorem dispatch_ticks_le (msg : MidiMessage) (now : Int) (s : EngineState)
    (h : s.clock_ticks ≤ 24) : (dispatch msg now s).1.clock_ticks ≤ 24 := by
  cases msg with
  | timingClock =>
    by_cases hp : s.pulsing = true
    · obtain ⟨ht, -, -, -⟩ := handle_clock_spec now s hp
      rw [dispatch_clock_eq now s hp, ht]
      split <;> omega
    · rw [Bool.not_eq_true] at hp
      simpa [dispatch, hp] using h
  | start => simp [dispatch, handle_start]
  | stop => simpa [dispatch, handle_stop] using h
  | unknown status => simpa [dispatch] using h
  | other => simpa [dispatch] using h

theorem loop_ticks_le (tp tm : Int) (idx : Nat) (msg : Option MidiMessage)
    (s : EngineState) (h : s.clock_ticks ≤ 24) :
    (loop tp tm idx msg s).clock_ticks ≤ 24 := by
  have hc := loop_poll_or_idle_ticks tp idx s
  cases msg with
  | none => simpa [loop, hc] using h
  | some m =>
    show (dispatch m tm (loop_poll_or_idle tp idx s)).1.clock_ticks ≤ 24
    exact dispatch_ticks_le m tm _ (by rw [hc]; exact h)

theorem run_loop_ticks_le :
    ∀ (trace : List LoopInput) (s : EngineState), s.clock_ticks ≤ 24 →
      (run_loop s trace).clock_ticks ≤ 24 := by
  intro trace
  induction trace with
  | nil => intro s h; exact h
  | cons i rest ih =>
    intro s h
    exact ih _ (loop_ticks_le i.tpoll i.tmsg i.idx i.msg s h)

theorem sync_inv_pin_on (now : Int) (s : EngineState) (h : now ≠ 0) :
    sync_inv (sync_pin_on now s) := by
  simp [sync_inv, sync_pin_on, h]

theorem sync_inv_pin_off (s : EngineState) : sync_inv (sync_pin_off s) := by
  simp [sync_inv, sync_pin_off]

theorem sync_inv_poll (now : Int) (s : EngineState) (h : sync_inv s) :
    sync_inv (poll now s) := by
  unfold sync_inv at h ⊢
  rw [poll_sync_value, poll_sync_millis]
  split_ifs <;> simp_all

theorem sync_inv_handle_clock (now : Int) (s : EngineState) (hn : now ≠ 0)
    (h : sync_inv s) : sync_inv (handle_clock now s).1 := by
  by_cases hp : s.pulsing = true
  · by_cases h12 : s.clock_ticks % 12 = 0
    · obtain ⟨h1, h2⟩ := handle_clock_sync_on now s hp h12
      unfold sync_inv
      rw [h1, h2]
      simp [hn]
    · obtain ⟨h1, h2⟩ := handle_clock_sync_keep now s h12
      unfold sync_inv at h ⊢
      rw [h1, h2]
      exact h
  · rw [Bool.not_eq_true] at hp
    simpa [handle_clock, hp] using h

theorem sync_inv_dispatch (msg : MidiMessage) (now : Int) (s : EngineState)
    (hn : now ≠ 0) (h : sync_inv s) : sync_inv (dispatch msg now s).1 := by
  cases msg with
  | timingClock =>
    by_cases hp : s.pulsing = true
    · rw [dispatch_clock_eq now s hp]
      exact sync_inv_handle_clock now s hn h
    · rw [Bool.not_eq_true] at hp
      simpa [dispatch, hp] using h
  | start => simpa [dispatch, handle_start, sync_inv] using h
  | stop => simpa [dispatch, handle_stop, sync_inv] using h
  | unknown status => simpa [dispatch] using h
  | other => simpa [dispatch] using h

theorem sync_inv_poll_or_idle (now : Int) (idx : Nat) (s : EngineState)
    (h : sync_inv s) : sync_inv (loop_poll_or_idle now idx s) := by
  unfold loop_poll_or_idle
  split_ifs
  · exact sync_inv_poll now s h
  · exact h
  · simpa [sync_inv] using h

theorem sync_inv_loop (tp tm : Int) (idx : Nat) (msg : Option MidiMessage)
    (s : EngineState) (htm : tm ≠ 0) (h : sync_inv s) :
    sync_inv (loop tp tm idx msg s) := by
  cases msg with
  | none => exact sync_inv_poll_or_idle tp idx s h
  | some m => exact sync_inv_dispatch m tm _ htm (sync_inv_poll_or_idle tp idx s h)

theorem sync_inv_run_loop :
    ∀ (trace : List LoopInput) (s : EngineState), sync_inv s →
      (∀ i ∈ trace, i.tmsg ≠ 0) → sync_inv (run_loop s trace) := by
  intro trace
  induction trace with
  | nil => intro s h _; exact h
  | cons i rest ih =>
    intro s h hall
    exact ih _ (sync_inv_loop i.tpoll i.tmsg i.idx i.msg s (hall i (by simp)) h)
      (fun j hj => hall j (by simp [hj]))

theorem loop_stopped_sync (tp tm : Int) (idx : Nat) (msg : Option MidiMessage)
    (s : EngineState) (h : s.pulsing = false) :
    (loop tp tm idx msg s).sync_value = s.sync_value ∧
    (loop tp tm idx msg s).pulse_sync_millis = s.pulse_sync_millis ∧
    (msg ≠ some MidiMessage.start → (loop tp tm idx msg s).pulsing = false) := by
  have hidle := loop_poll_or_idle_stopped tp idx s h
  cases msg with
  | none => simp [loop, hidle, h]
  | some m =>
    cases m with
    | timingClock =>
      have hpf : ({ s with led_duty := idx % 2048 } : EngineState).pulsing = false := h
      simp [loop, hidle, dispatch, hpf]
    | start => simp [loop, hidle, dispatch, handle_start]
    | stop => simp [loop, hidle, dispatch, handle_stop]
    | unknown status => simp [loop, hidle, dispatch, h]
    | other => simp [loop, hidle, dispatch, h]

theorem run_loop_stopped_sync :
    ∀ (trace : List LoopInput) (s : EngineState), s.pulsing = false →
      (∀ i ∈ trace, i.msg ≠ some MidiMessage.start) →
      (run_loop s trace).pulsing = false ∧
      (run_loop s trace).sync_value = s.sync_value ∧
      (run_loop s trace).pulse_sync_millis = s.pulse_sync_millis := by
  intro trace
  induction trace with
  | nil => intro s h _; exact ⟨h, rfl, rfl⟩
  | cons i rest ih =>
    intro s h hall
    obtain ⟨hv, hm, hpul⟩ := loop_stopped_sync i.tpoll i.tmsg i.idx i.msg s h
    obtain ⟨p1, p2, p3⟩ := ih _ (hpul (hall i (by simp)))
      (fun j hj => hall j (by simp [hj]))
    exact ⟨p1, p2.trans hv, p3.trans hm⟩

/-! Claim theorems. -/

/-- C1 counterexample: dispatching Start followed by a single TimingClock
already produces one half-beat pulse request (also marked strong), whereas
the claim predicts ⌊1/12⌋ = 0 half-beat and ⌊1/24⌋ = 0 strong requests.
The first clock after Start pulses (see the comment at lines 242-244). -/
theorem C1_counterexample :
    (run_clocks 3 1 (handle_start initial_state)).2.1 = 1 ∧
    (run_clocks 3 1 (handle_start initial_state)).2.2 = 1 ∧
    (1 : Nat) / 12 = 0 ∧ (1 : Nat) / 24 = 0 := by decide

/-- C1 (amended): for every initial transport state, dispatching Start
followed by n TimingClock messages produces exactly ⌈n/12⌉ = ⌊(n+11)/12⌋
half-beat pulse requests (sync assertion plus weak indicator), of which
exactly ⌈n/24⌉ = ⌊(n+23)/24⌋ are additionally marked strong: the first
clock after Start pulses, then every 12th (24th) clock after it. -/
theorem C1_amended_pulse_counts (s0 : EngineState) (now : Int) (n : Nat) :
    (run_clocks now n (handle_start s0)).2.1 = (n + 11) / 12 ∧
    (run_clocks now n (handle_start s0)).2.2 = (n + 23) / 24 := by
  obtain ⟨h1, h2⟩ := run_clocks_spec now n (handle_start s0) rfl
    (by simp [handle_start])
  constructor
  · rw [h1]; norm_num [handle_start]
  · rw [h2]; norm_num [handle_start]

/-- C2 counterexample: dispatching Start followed by 24 TimingClock
messages leaves the tick counter at exactly 24, contradicting the claimed
range [0, 24): the divider resets the counter at the start of the next
tick's processing, not before the counter becomes 24. -/
theorem C2_counterexample :
    (run_clocks 3 24 (handle_start initial_state)).1.clock_ticks = 24 := by
  decide

/-- C2 (amended): the clock tick counter of every reachable state stays in
the closed range [0, 24]: it is 0 initially, reset to 0 by Start, and the
clock-divider step resets it on the tick after it reaches 24, so no
sequence of loop iterations (polls, receives and dispatches included) can
drive it beyond 24. -/
theorem C2_amended_counter_bound :
    ∀ trace : List LoopInput, (run_loop initial_state trace).clock_ticks ≤ 24 :=
  fun trace => run_loop_ticks_le trace initial_state (Nat.zero_le 24)

/-- C3: dispatching Start from any prior state sets the transport Running
and resets the counter to 0 (so a Start while Running re-resets it);
dispatching Stop only clears the Running flag (counter, timestamps and
outputs untouched, no pulse requests); and a Stop dispatched to an
already-stopped state returns that state unchanged with no pulse requests. -/
theorem C3_start_stop_transitions (s : EngineState) (now : Int) :
    (dispatch .start now s).1 = { s with clock_ticks := 0, pulsing := true } ∧
    (dispatch .start now s).2 = (false, false) ∧
    (dispatch .stop now s).1 = { s with pulsing := false } ∧
    (dispatch .stop now s).2 = (false, false) ∧
    dispatch .stop now { s with pulsing := false }
      = ({ s with pulsing := false }, false, false) :=
  ⟨rfl, rfl, rfl, rfl, rfl⟩

/-- C5: a TimingClock dispatched while the transport is stopped is
discarded: no pulse requests, counter and every output unchanged (the
whole state is returned as is). -/
theorem C5_clock_ignored_when_stopped (s : EngineState) (now : Int)
    (h : s.pulsing = false) :
    dispatch .timingClock now s = (s, false, false) := by
  simp [dispatch, h]

/-- C5 witness: the initial state is stopped, and a TimingClock dispatched
to it is discarded wholesale. -/
theorem C5_clock_ignored_when_stopped_witness :
    dispatch .timingClock 9 initial_state = (initial_state, false, false) :=
  C5_clock_ignored_when_stopped initial_state 9 rfl

/-- C7: dispatch is a total function over the message union (it is defined
by exhaustive match, so no input faults), and both Unknown and Other
messages leave the state untouched and request no pulses. -/
theorem C7_unknown_noop (s : EngineState) (now : Int) (status : Nat) :
    dispatch (.unknown status) now s = (s, false, false) ∧
    dispatch .other now s = (s, false, false) :=
  ⟨rfl, rfl⟩

/-- C4: for a state whose sync and indicator channels are asserted
(timestamps nonzero, sync line high), the release pass at time `now`
releases a channel exactly when `now` minus its assertion timestamp
exceeds its hold duration; a poll at assertedAt + hold - 1 leaves the
channel asserted, a poll at assertedAt + hold + 1 releases it, channels
not due are left untouched, and a second poll after a release has no
further effect on the released channel. -/
theorem C4_poll_release (s : EngineState) (now : Int)
    (hms : s.pulse_sync_millis ≠ 0) (hv : s.sync_value = true)
    (hml : s.pulse_led_millis ≠ 0) :
    (now - s.pulse_sync_millis > pulse_sync →
      (poll now s).sync_value = false ∧ (poll now s).pulse_sync_millis = 0) ∧
    (¬ now - s.pulse_sync_millis > pulse_sync →
      (poll now s).sync_value = true ∧
      (poll now s).pulse_sync_millis = s.pulse_sync_millis) ∧
    ((poll (s.pulse_sync_millis + pulse_sync - 1) s).sync_value = true ∧
     (poll (s.pulse_sync_millis + pulse_sync - 1) s).pulse_sync_millis
        = s.pulse_sync_millis) ∧
    ((poll (s.pulse_sync_millis + pulse_sync + 1) s).sync_value = false ∧
     (poll (s.pulse_sync_millis + pulse_sync + 1) s).pulse_sync_millis = 0) ∧
    (∀ t2 : Int,
      (poll t2 (poll (s.pulse_sync_millis + pulse_sync + 1) s)).sync_value
        = false ∧
      (poll t2 (poll (s.pulse_sync_millis + pulse_sync + 1) s)).pulse_sync_millis
        = 0) ∧
    (now - s.pulse_led_millis > pulse_led →
      (poll now s).led_duty = 0 ∧ (poll now s).pulse_led_millis = 0) ∧
    (¬ now - s.pulse_led_millis > pulse_led →
      (poll now s).led_duty = s.led_duty ∧
      (poll now s).pulse_led_millis = s.pulse_led_millis) := by
  have hrel : (poll (s.pulse_sync_millis + pulse_sync + 1) s).sync_value = false ∧
      (poll (s.pulse_sync_millis + pulse_sync + 1) s).pulse_sync_millis = 0 := by
    rw [poll_sync_value, poll_sync_millis]
    have hc : s.pulse_sync_millis ≠ 0 ∧
        s.pulse_sync_millis + pulse_sync + 1 - s.pulse_sync_millis > pulse_sync :=
      ⟨hms, by omega⟩
    rw [if_pos hc, if_pos hc]
    exact ⟨rfl, rfl⟩
  refine ⟨?_, ?_, ?_, hrel, ?_, ?_, ?_⟩
  · intro h
    rw [poll_sync_value, poll_sync_millis]
    rw [if_pos ⟨hms, h⟩, if_pos ⟨hms, h⟩]
    exact ⟨rfl, rfl⟩
  · intro h
    rw [poll_sync_value, poll_sync_millis]
    have hc : ¬ (s.pulse_sync_millis ≠ 0 ∧
        now - s.pulse_sync_millis > pulse_sync) := fun hcon => h hcon.2
    rw [if_neg hc, if_neg hc]
    exact ⟨hv, rfl⟩
  · rw [poll_sync_value, poll_sync_millis]
    have hc : ¬ (s.pulse_sync_millis ≠ 0 ∧
        s.pulse_sync_millis + pulse_sync - 1 - s.pulse_sync_millis > pulse_sync) := by
      intro hcon
      omega
    rw [if_neg hc, if_neg hc]
    exact ⟨hv, rfl⟩
  · intro t2
    constructor
    · rw [poll_sync_value, hrel.1, hrel.2]
      simp
    · rw [poll_sync_millis t2, hrel.2]
      simp
  · intro h
    rw [poll_led_duty, poll_led_millis]
    rw [if_pos ⟨hml, h⟩, if_pos ⟨hml, h⟩]
    exact ⟨rfl, rfl⟩
  · intro h
    rw [poll_led_duty, poll_led_millis]
    have hc : ¬ (s.pulse_led_millis ≠ 0 ∧
        now - s.pulse_led_millis > pulse_led) := fun hcon => h hcon.2
    rw [if_neg hc, if_neg hc]
    exact ⟨rfl, rfl⟩

/-- C4 witness: a state asserted at time 100 on both channels, polled at
time 120 (overdue for the 15 ms holds), is released. -/
theorem C4_poll_release_witness :
    (poll 120 { clock_ticks := 0, pulsing := true, pulse_check_millis := 0, pulse_led_millis := 100, pulse_sync_millis := 100, led_duty := 65, sync_value := true }).sync_value = false ∧
    (poll 120 { clock_ticks := 0, pulsing := true, pulse_check_millis := 0, pulse_led_millis := 100, pulse_sync_millis := 100, led_duty := 65, sync_value := true }).pulse_sync_millis = 0 :=
  (C4_poll_release { clock_ticks := 0, pulsing := true, pulse_check_millis := 0, pulse_led_millis := 100, pulse_sync_millis := 100, led_duty := 65, sync_value := true } 120 (by decide) rfl (by decide)).1 (by decide)

/-- C6: re-triggering a channel overwrites its assertion timestamp with the
new request time (no stacking), so a release pass at any time not later
than the new request time plus the hold duration leaves the channel
asserted with that timestamp. -/
theorem C6_retrigger_extends (s : EngineState) (now t1 t2 : Int) (d : Nat)
    (h1 : t1 ≤ now + pulse_sync) (h2 : t2 ≤ now + pulse_led) :
    ((sync_pin_on now s).pulse_sync_millis = now ∧
     (sync_pin_on now s).sync_value = true) ∧
    ((poll t1 (sync_pin_on now s)).sync_value = true ∧
     (poll t1 (sync_pin_on now s)).pulse_sync_millis = now) ∧
    ((led_pin_on d now s).pulse_led_millis = now ∧
     (led_pin_on d now s).led_duty = d) ∧
    ((poll t2 (led_pin_on d now s)).led_duty = d ∧
     (poll t2 (led_pin_on d now s)).pulse_led_millis = now) := by
  refine ⟨⟨rfl, rfl⟩, ?_, ⟨rfl, rfl⟩, ?_⟩
  · rw [poll_sync_value, poll_sync_millis]
    have hval : (sync_pin_on now s).pulse_sync_millis = now := rfl
    have hc : ¬ ((sync_pin_on now s).pulse_sync_millis ≠ 0 ∧
        t1 - (sync_pin_on now s).pulse_sync_millis > pulse_sync) := by
      intro hcon
      rw [hval] at hcon
      omega
    rw [if_neg hc, if_neg hc]
    exact ⟨rfl, rfl⟩
  · rw [poll_led_duty, poll_led_millis]
    have hval : (led_pin_on d now s).pulse_led_millis = now := rfl
    have hc : ¬ ((led_pin_on d now s).pulse_led_millis ≠ 0 ∧
        t2 - (led_pin_on d now s).pulse_led_millis > pulse_led) := by
      intro hcon
      rw [hval] at hcon
      omega
    rw [if_neg hc, if_neg hc]
    exact ⟨rfl, rfl⟩

/-- C6 witness: a sync line re-triggered at time 50 is still asserted with
timestamp 50 when polled at time 65 = 50 + hold. -/
theorem C6_retrigger_extends_witness :
    (poll 65 (sync_pin_on 50 initial_state)).sync_value = true ∧
    (poll 65 (sync_pin_on 50 initial_state)).pulse_sync_millis = 50 :=
  (C6_retrigger_extends initial_state 50 65 60 65 (by decide) (by decide)).2.1

/-- C8: one loop iteration runs the poll-or-idle phase strictly before the
receive-and-dispatch phase, and consequently a sync pulse requested by the
dispatched TimingClock of an iteration is still asserted (with the
dispatch-time timestamp) at the end of that same iteration — it can only
be released by a poll of a later iteration. -/
theorem C8_poll_before_dispatch (s : EngineState) (tp tm : Int) (idx : Nat)
    (hp : s.pulsing = true) (hc : s.clock_ticks % 12 = 0) :
    (∀ msg : Option MidiMessage, loop tp tm idx msg s =
      match msg with
      | none => loop_poll_or_idle tp idx s
      | some m => (dispatch m tm (loop_poll_or_idle tp idx s)).1) ∧
    ((loop tp tm idx (some .timingClock) s).sync_value = true ∧
     (loop tp tm idx (some .timingClock) s).pulse_sync_millis = tm) := by
  constructor
  · intro msg
    cases msg <;> rfl
  · have hp1 : (loop_poll_or_idle tp idx s).pulsing = true := by
      rw [loop_poll_or_idle_pulsing]; exact hp
    have hc1 : (loop_poll_or_idle tp idx s).clock_ticks % 12 = 0 := by
      rw [loop_poll_or_idle_ticks]; exact hc
    have hsync := handle_clock_sync_on tm (loop_poll_or_idle tp idx s) hp1 hc1
    have hd : loop tp tm idx (some .timingClock) s
        = (handle_clock tm (loop_poll_or_idle tp idx s)).1 := by
      show (dispatch .timingClock tm (loop_poll_or_idle tp idx s)).1 = _
      rw [dispatch_clock_eq _ _ hp1]
    rw [hd]
    exact hsync

/-- C8 witness: from the running state right after Start, an iteration that
dispatches a TimingClock at time 7 ends with the sync line asserted at
timestamp 7 (the poll of that iteration ran before the dispatch). -/
theorem C8_poll_before_dispatch_witness :
    (loop 0 7 3 (some .timingClock) (handle_start initial_state)).sync_value
      = true ∧
    (loop 0 7 3 (some .timingClock) (handle_start initial_state)).pulse_sync_millis
      = 7 :=
  (C8_poll_before_dispatch (handle_start initial_state) 0 7 3 rfl
    (by decide)).2

/-- C9: the sync-channel invariant (assertion timestamp nonzero exactly
when the sync pin is high) is preserved by every operation — a request at
a nonzero monotonic time establishes it, release, the poll pass, dispatch
and a whole loop iteration preserve it — and it holds in every state the
main loop reaches from the initial state when all handler times are
nonzero (monotonic time is positive once the loop runs). -/
theorem C9_sync_invariant (s : EngineState) (now tp tm : Int) (idx : Nat)
    (msg : MidiMessage) (trace : List LoopInput) (hnow : now ≠ 0)
    (htm : tm ≠ 0) (hinv : sync_inv s) (htrace : ∀ i ∈ trace, i.tmsg ≠ 0) :
    sync_inv (sync_pin_on now s) ∧
    sync_inv (sync_pin_off s) ∧
    sync_inv (poll now s) ∧
    sync_inv (dispatch msg tm s).1 ∧
    sync_inv (loop tp tm idx (some msg) s) ∧
    sync_inv (run_loop initial_state trace) :=
  ⟨sync_inv_pin_on now s hnow, sync_inv_pin_off s, sync_inv_poll now s hinv,
    sync_inv_dispatch msg tm s htm hinv,
    sync_inv_loop tp tm idx (some msg) s htm hinv,
    sync_inv_run_loop trace initial_state (by simp [sync_inv, initial_state])
      htrace⟩

/-- C9 witness: the invariant holds after a request at time 5 on the
initial state, after each operation on it, and after a concrete run
(Start, then a TimingClock) of the main loop. -/
theorem C9_sync_invariant_witness :
    sync_inv (sync_pin_on 5 initial_state) ∧
    sync_inv (sync_pin_off initial_state) ∧
    sync_inv (poll 5 initial_state) ∧
    sync_inv (dispatch .start 9 initial_state).1 ∧
    sync_inv (loop 2 9 3 (some .start) initial_state) ∧
    sync_inv (run_loop initial_state
      [{ tpoll := 0, tmsg := 5, idx := 0, msg := some MidiMessage.start },
       { tpoll := 6, tmsg := 7, idx := 1, msg := some MidiMessage.timingClock }]) :=
  C9_sync_invariant initial_state 5 2 9 3 .start
    [{ tpoll := 0, tmsg := 5, idx := 0, msg := some MidiMessage.start },
     { tpoll := 6, tmsg := 7, idx := 1, msg := some MidiMessage.timingClock }]
    (by decide) (by decide) (by simp [sync_inv, initial_state]) (by decide)

/-- C10: handle_stop only clears the Running flag (it drives no output
off), a loop iteration whose state is Stopped never changes the sync line
or its timestamp whatever message arrives, and over any run of iterations
containing no Start message the transport stays Stopped and an asserted
sync line stays asserted untouched. -/
theorem C10_stopped_keeps_outputs :
    (∀ s : EngineState, handle_stop s = { s with pulsing := false }) ∧
    (∀ (s : EngineState) (tp tm : Int) (idx : Nat) (msg : Option MidiMessage),
      s.pulsing = false →
      (loop tp tm idx msg s).sync_value = s.sync_value ∧
      (loop tp tm idx msg s).pulse_sync_millis = s.pulse_sync_millis) ∧
    (∀ (s : EngineState) (trace : List LoopInput), s.pulsing = false →
      (∀ i ∈ trace, i.msg ≠ some MidiMessage.start) →
      (run_loop s trace).pulsing = false ∧
      (run_loop s trace).sync_value = s.sync_value ∧
      (run_loop s trace).pulse_sync_millis = s.pulse_sync_millis) := by
  refine ⟨fun s => rfl, ?_, ?_⟩
  · intro s tp tm idx msg h
    obtain ⟨h1, h2, -⟩ := loop_stopped_sync tp tm idx msg s h
    exact ⟨h1, h2⟩
  · intro s trace h hall
    exact run_loop_stopped_sync trace s h hall

/-- C10 witness: a stopped state with the sync line asserted at time 42
keeps it asserted, untouched, through iterations that dispatch a Stop and
a TimingClock; the transport stays Stopped. -/
theorem C10_stopped_keeps_outputs_witness :
    (run_loop { clock_ticks := 7, pulsing := false, pulse_check_millis := 0, pulse_led_millis := 0, pulse_sync_millis := 42, led_duty := 0, sync_value := true }
      [{ tpoll := 50, tmsg := 51, idx := 0, msg := some MidiMessage.stop },
       { tpoll := 60, tmsg := 61, idx := 1, msg := some MidiMessage.timingClock }]).pulsing = false ∧
    (run_loop { clock_ticks := 7, pulsing := false, pulse_check_millis := 0, pulse_led_millis := 0, pulse_sync_millis := 42, led_duty := 0, sync_value := true }
      [{ tpoll := 50, tmsg := 51, idx := 0, msg := some MidiMessage.stop },
       { tpoll := 60, tmsg := 61, idx := 1, msg := some MidiMessage.timingClock }]).sync_value = true ∧
    (run_loop { clock_ticks := 7, pulsing := false, pulse_check_millis := 0, pulse_led_millis := 0, pulse_sync_millis := 42, led_duty := 0, sync_value := true }
      [{ tpoll := 50, tmsg := 51, idx := 0, msg := some MidiMessage.stop },
       { tpoll := 60, tmsg := 61, idx := 1, msg := some MidiMessage.timingClock }]).pulse_sync_millis = 42 :=
  C10_stopped_keeps_outputs.2.2
    { clock_ticks := 7, pulsing := false, pulse_check_millis := 0, pulse_led_millis := 0, pulse_sync_millis := 42, led_duty := 0, sync_value := true }
    [{ tpoll := 50, tmsg := 51, idx := 0, msg := some MidiMessage.stop },
     { tpoll := 60, tmsg := 61, idx := 1, msg := some MidiMessage.timingClock }]
    rfl (by decide)
